import Mathlib

/-!
Verification of the solar-system renderer's transform, shadow, camera,
particle and render-state-cache kernels, shallowly embedded from the
JavaScript sources (js/renderer.js, js/utils/shaders.js, js/geometry.js).
Floating-point arithmetic is modelled by exact real arithmetic.
-/

namespace SolarSystem

open Real

noncomputable section

/-- Three-component vector, the shape of WebGL vec3 values. -/
structure Vec3 where
  x : ℝ
  y : ℝ
  z : ℝ
deriving DecidableEq

/-- Componentwise vector addition. -/
def Vec3.add (a b : Vec3) : Vec3 := ⟨a.x + b.x, a.y + b.y, a.z + b.z⟩

/-- Componentwise vector subtraction. -/
def Vec3.sub (a b : Vec3) : Vec3 := ⟨a.x - b.x, a.y - b.y, a.z - b.z⟩

/-- Scalar multiplication of a vector. -/
def Vec3.smul (c : ℝ) (a : Vec3) : Vec3 := ⟨c * a.x, c * a.y, c * a.z⟩

/-- Dot product of two vectors. -/
def dot3 (a b : Vec3) : ℝ := a.x * b.x + a.y * b.y + a.z * b.z

/-- Euclidean length of a vector (GLSL `length`). -/
def len3 (a : Vec3) : ℝ := Real.sqrt (dot3 a a)

/-- Helper for evaluating square roots at concrete rational inputs. -/
theorem sqrt_eval {a b : ℝ} (hb : 0 ≤ b) (h : a = b ^ 2) : Real.sqrt a = b := by
  rw [h, Real.sqrt_sq hb]

/-- A 3x3 matrix stored as its three columns, matching the column-major
rotation block of a WebGL 4x4 model matrix. -/
structure Mat3 where
  col0 : Vec3
  col1 : Vec3
  col2 : Vec3

/-- Matrix-vector product in WebGL convention: the result is the linear
combination of the columns by the vector components. -/
def applyMat3 (m : Mat3) (v : Vec3) : Vec3 :=
  (Vec3.smul v.x m.col0).add ((Vec3.smul v.y m.col1).add (Vec3.smul v.z m.col2))

/-- Transpose of a 3x3 matrix: the columns of the transpose are the rows of
the original. -/
def mat3Transpose (m : Mat3) : Mat3 :=
  ⟨⟨m.col0.x, m.col1.x, m.col2.x⟩,
   ⟨m.col0.y, m.col1.y, m.col2.y⟩,
   ⟨m.col0.z, m.col1.z, m.col2.z⟩⟩

/-- Degrees-to-radians conversion `(deg * Math.PI) / 180` used throughout
the renderer. -/
def degToRad (deg : ℝ) : ℝ := deg * Real.pi / 180

/-- The fused tilt-and-spin rotation block built by `renderSphere` in
js/renderer.js (the `tempMatrix` entries, column-major):
`m[0]=cosRot, m[2]=sinRot, m[4]=sinRot*sinTilt, m[5]=cosTilt,
m[6]=-cosRot*sinTilt, m[8]=-sinRot*cosTilt, m[9]=sinTilt,
m[10]=cosRot*cosTilt`.  `axialTiltDeg` is converted to radians as in the
source; `rotationAngle` is already in radians. -/
def fusedTiltSpin (axialTiltDeg rotationAngle : ℝ) : Mat3 :=
  let tiltRad := degToRad axialTiltDeg
  let cosTilt := Real.cos tiltRad
  let sinTilt := Real.sin tiltRad
  let cosRot := Real.cos rotationAngle
  let sinRot := Real.sin rotationAngle
  ⟨⟨cosRot, 0, sinRot⟩,
   ⟨sinRot * sinTilt, cosTilt, -cosRot * sinTilt⟩,
   ⟨-sinRot * cosTilt, sinTilt, cosRot * cosTilt⟩⟩

/-- Rotation about the x-axis by `θ` radians. -/
def rotX (θ : ℝ) (v : Vec3) : Vec3 :=
  ⟨v.x, v.y * Real.cos θ - v.z * Real.sin θ, v.y * Real.sin θ + v.z * Real.cos θ⟩

/-- C5: for every tilt angle and every spin angle, the fused tilt-and-spin
3x3 rotation block built by renderSphere is orthonormal (each column has
unit length and the columns are mutually perpendicular), and its middle
(tilted "up") column equals
(sin(spin)*sin(tilt), cos(tilt), -cos(spin)*sin(tilt)), where tilt is the
axial tilt converted to radians. -/
theorem fused_tilt_spin_orthonormal (tiltDeg rot : ℝ) :
    len3 (fusedTiltSpin tiltDeg rot).col0 = 1 ∧
    len3 (fusedTiltSpin tiltDeg rot).col1 = 1 ∧
    len3 (fusedTiltSpin tiltDeg rot).col2 = 1 ∧
    dot3 (fusedTiltSpin tiltDeg rot).col0 (fusedTiltSpin tiltDeg rot).col1 = 0 ∧
    dot3 (fusedTiltSpin tiltDeg rot).col0 (fusedTiltSpin tiltDeg rot).col2 = 0 ∧
    dot3 (fusedTiltSpin tiltDeg rot).col1 (fusedTiltSpin tiltDeg rot).col2 = 0 ∧
    (fusedTiltSpin tiltDeg rot).col1 =
      ⟨Real.sin rot * Real.sin (degToRad tiltDeg), Real.cos (degToRad tiltDeg),
        -Real.cos rot * Real.sin (degToRad tiltDeg)⟩ := by
  have ht := Real.sin_sq_add_cos_sq (degToRad tiltDeg)
  have hr := Real.sin_sq_add_cos_sq rot
  refine ⟨?_, ?_, ?_, ?_, ?_, ?_, rfl⟩ <;>
    simp only [fusedTiltSpin, len3, dot3] <;>
    try rw [Real.sqrt_eq_one]
  · linear_combination hr
  · linear_combination Real.sin (degToRad tiltDeg) ^ 2 * hr + ht
  · linear_combination Real.cos (degToRad tiltDeg) ^ 2 * hr + ht
  · ring
  · ring
  · linear_combination
      (-(Real.sin (degToRad tiltDeg) * Real.cos (degToRad tiltDeg))) * hr

/-! ## Eclipse shadow test (fragment shader, js/renderer.js `fragmentShaderSource`) -/

/-- GLSL `mix(x, y, a) = x*(1-a) + y*a`. -/
def glslMix (x y a : ℝ) : ℝ := x * (1 - a) + y * a

/-- Unit direction from the shaded point toward the light:
`toLightDir = toLight / distToLight` in the shader. -/
def toLightDir (lightPos pos : Vec3) : Vec3 :=
  Vec3.smul (1 / len3 (lightPos.sub pos)) (lightPos.sub pos)

/-- Ray parameter of the occluder center along the ray toward the light:
`t = dot(toOccluder, toLightDir)`. -/
def occluderRayT (lightPos pos occ : Vec3) : ℝ :=
  dot3 (occ.sub pos) (toLightDir lightPos pos)

/-- Distance from the closest point on the light ray to the occluder center:
`length(vPosition + toLightDir * t - occluderCenter)`. -/
def occluderClosestDist (lightPos pos occ : Vec3) : ℝ :=
  len3 ((pos.add (Vec3.smul (occluderRayT lightPos pos occ) (toLightDir lightPos pos))).sub occ)

open Classical in
/-- The shadow multiplier computed by the fragment shader: the moon-occluder
check (guarded by `uCheckShadow && diff > 0.1`) sets `shadow = 0.2` inside
the moon radius; the planet-occluder check (guarded by `uCheckPlanetShadow`)
takes `min` with `0.1` in the umbra and with a linearly interpolated
penumbra value up to `1.5 * uPlanetRadius`. -/
def shadowMultiplier (lightPos pos : Vec3) (checkShadow : Bool) (diff : ℝ)
    (moonPos : Vec3) (moonRadius : ℝ) (checkPlanetShadow : Bool)
    (planetPos : Vec3) (planetRadius : ℝ) : ℝ :=
  let s1 : ℝ :=
    if checkShadow = true ∧ 0.1 < diff then
      if 0 < occluderRayT lightPos pos moonPos ∧
          occluderRayT lightPos pos moonPos < len3 (lightPos.sub pos) then
        if occluderClosestDist lightPos pos moonPos < moonRadius then 0.2 else 1
      else 1
    else 1
  if checkPlanetShadow = true then
    if 0 < occluderRayT lightPos pos planetPos ∧
        occluderRayT lightPos pos planetPos < len3 (lightPos.sub pos) then
      if occluderClosestDist lightPos pos planetPos < planetRadius then
        min s1 0.1
      else
        if occluderClosestDist lightPos pos planetPos < planetRadius * 1.5 then
          min s1 (glslMix 0.1 1
            ((occluderClosestDist lightPos pos planetPos - planetRadius) / (planetRadius * 0.5)))
        else s1
    else s1
  else s1

open Classical in
/-- The moon-occluder contribution on its own: a fixed `0.2` umbra with no
penumbra, active only when `uCheckShadow` holds and `diff > 0.1`. -/
def moonShadowFactor (lightPos pos : Vec3) (checkShadow : Bool) (diff : ℝ)
    (moonPos : Vec3) (moonRadius : ℝ) : ℝ :=
  if checkShadow = true ∧ 0.1 < diff then
    if 0 < occluderRayT lightPos pos moonPos ∧
        occluderRayT lightPos pos moonPos < len3 (lightPos.sub pos) then
      if occluderClosestDist lightPos pos moonPos < moonRadius then 0.2 else 1
    else 1
  else 1

open Classical in
/-- The planet-occluder contribution on its own: `0.1` umbra, linear
penumbra between `planetRadius` and `1.5 * planetRadius`, and `1` beyond. -/
def planetShadowFactor (lightPos pos : Vec3) (checkPlanetShadow : Bool)
    (planetPos : Vec3) (planetRadius : ℝ) : ℝ :=
  if checkPlanetShadow = true then
    if 0 < occluderRayT lightPos pos planetPos ∧
        occluderRayT lightPos pos planetPos < len3 (lightPos.sub pos) then
      if occluderClosestDist lightPos pos planetPos < planetRadius then (0.1 : ℝ)
      else
        if occluderClosestDist lightPos pos planetPos < planetRadius * 1.5 then
          glslMix 0.1 1
            ((occluderClosestDist lightPos pos planetPos - planetRadius) / (planetRadius * 0.5))
        else 1
    else 1
  else 1

/-- C1 counterexample: a configuration in which the moon-occluder check is
active (diff = 1 > 0.1, ray parameter strictly between the point and the
light) and the closest-approach distance `5/4` lies strictly between the
occluder radius `1` and `1.5` times that radius, yet the shader's shadow
multiplier is exactly `1`: the moon check has no penumbra.  Running the
claimed "identical ray-sphere-distance algorithm" (the planet-check code)
on the same geometry yields `11/20 ≠ 1`. -/
theorem shadow_moon_penumbra_counterexample :
    shadowMultiplier ⟨0, 0, 0⟩ ⟨10, 0, 0⟩ true 1 ⟨5, 5/4, 0⟩ 1 false ⟨0, 0, 0⟩ 0 = 1 ∧
    1 < occluderClosestDist ⟨0, 0, 0⟩ ⟨10, 0, 0⟩ ⟨5, 5/4, 0⟩ ∧
    occluderClosestDist ⟨0, 0, 0⟩ ⟨10, 0, 0⟩ ⟨5, 5/4, 0⟩ < 1 * 1.5 ∧
    0 < occluderRayT ⟨0, 0, 0⟩ ⟨10, 0, 0⟩ ⟨5, 5/4, 0⟩ ∧
    occluderRayT ⟨0, 0, 0⟩ ⟨10, 0, 0⟩ ⟨5, 5/4, 0⟩ <
      len3 ((⟨0, 0, 0⟩ : Vec3).sub ⟨10, 0, 0⟩) ∧
    planetShadowFactor ⟨0, 0, 0⟩ ⟨10, 0, 0⟩ true ⟨5, 5/4, 0⟩ 1 = 11/20 := by
  have hdL : len3 ((⟨0, 0, 0⟩ : Vec3).sub ⟨10, 0, 0⟩) = 10 := by
    rw [len3, Vec3.sub, dot3]
    exact sqrt_eval (by norm_num) (by norm_num)
  have hdir : toLightDir ⟨0, 0, 0⟩ ⟨10, 0, 0⟩ = ⟨-1, 0, 0⟩ := by
    rw [toLightDir, hdL, Vec3.sub, Vec3.smul]
    norm_num
  have ht : occluderRayT ⟨0, 0, 0⟩ ⟨10, 0, 0⟩ ⟨5, 5/4, 0⟩ = 5 := by
    rw [occluderRayT, hdir, Vec3.sub, dot3]
    norm_num
  have hd : occluderClosestDist ⟨0, 0, 0⟩ ⟨10, 0, 0⟩ ⟨5, 5/4, 0⟩ = 5 / 4 := by
    rw [occluderClosestDist, ht, hdir, Vec3.smul, Vec3.add, Vec3.sub, len3, dot3]
    exact sqrt_eval (by norm_num) (by norm_num)
  refine ⟨?_, ?_, ?_, ?_, ?_, ?_⟩
  · rw [shadowMultiplier]
    rw [if_neg (by simp)]
    rw [if_pos ⟨rfl, by norm_num⟩, if_pos ⟨by rw [ht]; norm_num, by rw [ht, hdL]; norm_num⟩,
      if_neg (by rw [hd]; norm_num)]
  · rw [hd]; norm_num
  · rw [hd]; norm_num
  · rw [ht]; norm_num
  · rw [ht, hdL]; norm_num
  · rw [planetShadowFactor,
      if_pos rfl, if_pos ⟨by rw [ht]; norm_num, by rw [ht, hdL]; norm_num⟩,
      if_neg (by rw [hd]; norm_num), if_pos (by rw [hd]; norm_num), hd, glslMix]
    norm_num

/-- C1 amended: the overall shadow multiplier is the pointwise minimum of
the two occluder contributions, where the planet-occluder factor follows
the claimed umbra/penumbra/1.0 algorithm with thresholds `planetRadius`
and `1.5 * planetRadius`, but the moon-occluder factor is `0.2` in the
umbra and exactly `1` otherwise (no penumbra band), and is active only
when `diff > 0.1`. -/
theorem shadow_multiplier_min_decomposition (lightPos pos : Vec3)
    (checkShadow : Bool) (diff : ℝ) (moonPos : Vec3) (moonRadius : ℝ)
    (checkPlanetShadow : Bool) (planetPos : Vec3) (planetRadius : ℝ) :
    shadowMultiplier lightPos pos checkShadow diff moonPos moonRadius
        checkPlanetShadow planetPos planetRadius =
      min (moonShadowFactor lightPos pos checkShadow diff moonPos moonRadius)
        (planetShadowFactor lightPos pos checkPlanetShadow planetPos planetRadius) := by
  rw [shadowMultiplier, moonShadowFactor, planetShadowFactor]
  split_ifs <;> norm_num

/-! ## Body configuration and the orbital/transform kernel -/

/-- Moon configuration entry (config.js shape used by the render loop).
An absent `orbitalTilt` field is `none`. -/
structure MoonCfg where
  name : String
  radius : ℝ
  orbitRadius : ℝ
  orbitSpeed : ℝ
  orbitalTilt : Option ℝ

/-- Planet configuration entry.  `startAngle`, `inclination`,
`eccentricity` and `rotationSpeed` default to `0` when absent, matching
the `x || 0` / falsy guards in the source; `axialTilt` is genuinely
optional (`!== undefined` tests). -/
structure PlanetCfg where
  name : String
  radius : ℝ
  orbitRadius : ℝ
  orbitSpeed : ℝ
  startAngle : ℝ
  inclination : ℝ
  eccentricity : ℝ
  rotationSpeed : ℝ
  axialTilt : Option ℝ
  moons : List MoonCfg

/-- Sun configuration (only the fields the modelled code reads). -/
structure SunCfg where
  radius : ℝ

/-- Root configuration table. -/
structure Config where
  sun : SunCfg
  planets : List PlanetCfg

/-- Orbit angle of a planet:
`angle = accumulatedTime * planet.orbitSpeed * 0.1 + startAngleRad`. -/
def planetOrbitAngle (p : PlanetCfg) (t : ℝ) : ℝ :=
  t * p.orbitSpeed * 0.1 + degToRad p.startAngle

open Classical in
/-- World position of a planet (render loop; the same formulas appear in
`calculateFocusPosition` and `createOrbitPath`): polar ellipse when
`eccentricity > 0`, circle otherwise, then the flat `(x, zFlat)` pair is
tilted about the x-axis by the inclination:
`y = -zFlat*sin(inc)`, `z = zFlat*cos(inc)`. -/
def planetPosition (p : PlanetCfg) (t : ℝ) : Vec3 :=
  let angle := planetOrbitAngle p t
  let incRad := degToRad p.inclination
  if 0 < p.eccentricity then
    let r := p.orbitRadius * (1 - p.eccentricity * p.eccentricity) /
      (1 + p.eccentricity * Real.cos angle)
    ⟨r * Real.cos angle, -(r * Real.sin angle) * Real.sin incRad,
      r * Real.sin angle * Real.cos incRad⟩
  else
    ⟨p.orbitRadius * Real.cos angle,
      -(p.orbitRadius * Real.sin angle) * Real.sin incRad,
      p.orbitRadius * Real.sin angle * Real.cos incRad⟩

/-- Distance of a planet from its parent (the sun at the origin). -/
def distFromSun (p : PlanetCfg) (t : ℝ) : ℝ := len3 (planetPosition p t)

/-- Orbit angle of a moon: `moonAngle = accumulatedTime * moon.orbitSpeed * 0.1`. -/
def moonOrbitAngle (m : MoonCfg) (t : ℝ) : ℝ := t * m.orbitSpeed * 0.1

/-- The moon's point on its orbital circle in the flat orbital plane:
`(orbitRadius*cos(moonAngle), 0, orbitRadius*sin(moonAngle))`. -/
def moonLocalPoint (m : MoonCfg) (moonAngle : ℝ) : Vec3 :=
  ⟨m.orbitRadius * Real.cos moonAngle, 0, m.orbitRadius * Real.sin moonAngle⟩

/-- World position at which a moon is rendered (render loop, the
`planet.moons.forEach` body): three placement modes selected by the
optional fields, in source order — explicit `orbitalTilt`, else parent
`axialTilt` (tilt combined with the planet's rotation angle), else the
horizontal plane. -/
def moonWorldPosition (m : MoonCfg) (planetPos : Vec3) (axialTilt : Option ℝ)
    (rotationAngle moonAngle : ℝ) : Vec3 :=
  match m.orbitalTilt with
  | some ot =>
    let tiltRad := degToRad ot
    ⟨planetPos.x + m.orbitRadius * Real.cos moonAngle,
      planetPos.y + m.orbitRadius * Real.sin moonAngle * Real.sin tiltRad,
      planetPos.z + m.orbitRadius * Real.sin moonAngle * Real.cos tiltRad⟩
  | none =>
    match axialTilt with
    | some tilt =>
      let tiltRad := degToRad tilt
      let cosTilt := Real.cos tiltRad
      let sinTilt := Real.sin tiltRad
      let cosRot := Real.cos rotationAngle
      let sinRot := Real.sin rotationAngle
      let localX := m.orbitRadius * Real.cos moonAngle
      let localY : ℝ := 0
      let localZ := m.orbitRadius * Real.sin moonAngle
      ⟨planetPos.x + (localX * cosRot + localZ * sinRot),
        planetPos.y + (localX * sinRot * sinTilt + localY * cosTilt - localZ * cosRot * sinTilt),
        planetPos.z + (-localX * sinRot * cosTilt + localY * sinTilt + localZ * cosRot * cosTilt)⟩
    | none =>
      ⟨planetPos.x + m.orbitRadius * Real.cos moonAngle,
        planetPos.y,
        planetPos.z + m.orbitRadius * Real.sin moonAngle⟩

/-- World position of the first moon as computed for the planet's
shadow-occluder uniform (render loop, "Calculate moon position for
shadow"): same modes, but the inherited-axial-tilt mode applies only the
tilt, not the planet rotation. -/
def occluderMoonPosition (m : MoonCfg) (planetPos : Vec3) (axialTilt : Option ℝ)
    (moonAngle : ℝ) : Vec3 :=
  match m.orbitalTilt with
  | some ot =>
    let tiltRad := degToRad ot
    ⟨planetPos.x + m.orbitRadius * Real.cos moonAngle,
      planetPos.y + m.orbitRadius * Real.sin moonAngle * Real.sin tiltRad,
      planetPos.z + m.orbitRadius * Real.sin moonAngle * Real.cos tiltRad⟩
  | none =>
    match axialTilt with
    | some tilt =>
      let tiltRad := degToRad tilt
      let cosTilt := Real.cos tiltRad
      let sinTilt := Real.sin tiltRad
      let localX := m.orbitRadius * Real.cos moonAngle
      let localY : ℝ := 0
      let localZ := m.orbitRadius * Real.sin moonAngle
      ⟨planetPos.x + localX,
        planetPos.y + (localY * cosTilt - localZ * sinTilt),
        planetPos.z + (localY * sinTilt + localZ * cosTilt)⟩
    | none =>
      ⟨planetPos.x + m.orbitRadius * Real.cos moonAngle,
        planetPos.y,
        planetPos.z + m.orbitRadius * Real.sin moonAngle⟩

/-- Tidal-lock surface rotation angle passed to the moon's `renderSphere`
call: `tidalLockRotation = moonAngle + Math.PI / 2` with
`moonAngle = accumulatedTime * moon.orbitSpeed * 0.1`. -/
def tidalLockRotation (m : MoonCfg) (t : ℝ) : ℝ :=
  t * m.orbitSpeed * 0.1 + Real.pi / 2

/-- C6: for every moon and every time, the surface rotation angle passed
to renderSphere equals the moon's orbit angle plus pi/2 radians. -/
theorem tidal_lock_rotation (m : MoonCfg) (t : ℝ) :
    tidalLockRotation m t = moonOrbitAngle m t + Real.pi / 2 := by
  rw [tidalLockRotation, moonOrbitAngle]

/-- C3 counterexample: a moon with no `orbitalTilt` under a parent with
`axialTilt = 90` degrees and rotation angle pi/2, at moon angle 0, is
rendered at `(0, 1, 0)`, while applying the fused tilt-and-spin matrix the
parent uses for its rings to the same orbital-plane point gives
`(0, 0, 1)`: the code applies the transpose of that matrix, not the matrix
itself. -/
theorem moon_axial_mode_matrix_counterexample :
    moonWorldPosition ⟨"M", 1, 1, 1, none⟩ ⟨0, 0, 0⟩ (some 90) (Real.pi / 2) 0 ≠
      Vec3.add ⟨0, 0, 0⟩
        (applyMat3 (fusedTiltSpin 90 (Real.pi / 2)) (moonLocalPoint ⟨"M", 1, 1, 1, none⟩ 0)) := by
  have h90 : degToRad 90 = Real.pi / 2 := by rw [degToRad]; ring
  simp only [moonWorldPosition, moonLocalPoint, fusedTiltSpin, applyMat3, Vec3.add, Vec3.smul,
    h90, Real.cos_pi_div_two, Real.sin_pi_div_two, Real.cos_zero, Real.sin_zero]
  simp only [Vec3.mk.injEq, ne_eq, not_and]
  intro _ h _
  norm_num at h

/-- C3 amended: moon placement uses exactly one of three mutually
exclusive modes in the source's precedence order — (a) explicit
`orbitalTilt`: the moon's own orbital circle rotated about the x-axis,
independent of the planet's spin; (b) otherwise parent `axialTilt`: the
orbital-plane point transformed by the TRANSPOSE of the fused
tilt-and-spin matrix the parent uses for its rings; (c) otherwise the
horizontal plane offset by the planet position. -/
theorem moon_placement_three_modes (m : MoonCfg) (pPos : Vec3) (tiltOpt : Option ℝ)
    (rot mA : ℝ) :
    (∀ ot, m.orbitalTilt = some ot →
      moonWorldPosition m pPos tiltOpt rot mA =
        pPos.add (rotX (-(degToRad ot)) (moonLocalPoint m mA))) ∧
    (m.orbitalTilt = none → ∀ tilt, tiltOpt = some tilt →
      moonWorldPosition m pPos tiltOpt rot mA =
        pPos.add (applyMat3 (mat3Transpose (fusedTiltSpin tilt rot)) (moonLocalPoint m mA))) ∧
    (m.orbitalTilt = none → tiltOpt = none →
      moonWorldPosition m pPos tiltOpt rot mA = pPos.add (moonLocalPoint m mA)) := by
  refine ⟨fun ot hot => ?_, fun hnone tilt htilt => ?_, fun hnone htilt => ?_⟩
  · simp only [moonWorldPosition, hot, moonLocalPoint, rotX, Vec3.add, Real.sin_neg,
      Real.cos_neg, Vec3.mk.injEq]
    refine ⟨by ring_nf, by ring_nf, by ring_nf⟩
  · simp only [moonWorldPosition, hnone, htilt, moonLocalPoint, fusedTiltSpin, mat3Transpose,
      applyMat3, Vec3.add, Vec3.smul, Vec3.mk.injEq]
    refine ⟨by ring_nf, by ring_nf, by ring_nf⟩
  · simp only [moonWorldPosition, hnone, htilt, moonLocalPoint, Vec3.add, Vec3.mk.injEq]
    refine ⟨by ring_nf, by ring_nf, by ring_nf⟩

/-- C3 witness: the amended mode-(b) equation instantiated at a concrete
moon, tilt 90 degrees and rotation pi/2. -/
theorem moon_placement_three_modes_witness :
    moonWorldPosition ⟨"M", 1, 1, 1, none⟩ ⟨0, 0, 0⟩ (some 90) (Real.pi / 2) 0 =
      Vec3.add ⟨0, 0, 0⟩
        (applyMat3 (mat3Transpose (fusedTiltSpin 90 (Real.pi / 2)))
          (moonLocalPoint ⟨"M", 1, 1, 1, none⟩ 0)) :=
  (moon_placement_three_modes ⟨"M", 1, 1, 1, none⟩ ⟨0, 0, 0⟩ (some 90)
    (Real.pi / 2) 0).2.1 rfl 90 rfl

/-- C10: the shadow-occluder moon position agrees with the rendered moon
position, for every rotation angle, in the explicit-orbital-tilt mode and
in the no-tilt-data mode; and there is a configuration in the
inherited-axial-tilt mode (tilt 90 degrees, rotation pi/2, moon angle 0)
where the two differ, because the occluder applies the axial tilt only
while the rendered position also includes the planet's spin rotation. -/
theorem occluder_matches_rendered_moon (m : MoonCfg) (pPos : Vec3)
    (tiltOpt : Option ℝ) (rot mA : ℝ) :
    (∀ ot, m.orbitalTilt = some ot →
      occluderMoonPosition m pPos tiltOpt mA = moonWorldPosition m pPos tiltOpt rot mA) ∧
    (m.orbitalTilt = none → tiltOpt = none →
      occluderMoonPosition m pPos tiltOpt mA = moonWorldPosition m pPos tiltOpt rot mA) ∧
    occluderMoonPosition ⟨"M", 1, 1, 1, none⟩ ⟨0, 0, 0⟩ (some 90) 0 ≠
      moonWorldPosition ⟨"M", 1, 1, 1, none⟩ ⟨0, 0, 0⟩ (some 90) (Real.pi / 2) 0 := by
  have h90 : degToRad 90 = Real.pi / 2 := by rw [degToRad]; ring
  refine ⟨fun ot hot => ?_, fun hnone htilt => ?_, ?_⟩
  · simp only [occluderMoonPosition, moonWorldPosition, hot]
  · simp only [occluderMoonPosition, moonWorldPosition, hnone, htilt]
  · simp only [occluderMoonPosition, moonWorldPosition, h90, Real.cos_pi_div_two,
      Real.sin_pi_div_two, Real.cos_zero, Real.sin_zero, Vec3.mk.injEq, ne_eq, not_and]
    intro h
    norm_num at h

/-- C10 witness: occluder and rendered positions agree at a concrete moon
with an explicit orbital tilt and a nonzero planet rotation. -/
theorem occluder_matches_rendered_moon_witness :
    occluderMoonPosition ⟨"M", 2, 3, 1, some 5⟩ ⟨1, 1, 1⟩ none 2 =
      moonWorldPosition ⟨"M", 2, 3, 1, some 5⟩ ⟨1, 1, 1⟩ none 7 2 :=
  (occluder_matches_rendered_moon ⟨"M", 2, 3, 1, some 5⟩ ⟨1, 1, 1⟩ none 7 2).1 5 rfl

/-- Circular case of the distance computation: with eccentricity zero the
distance from the sun is the orbit radius, for every time. -/
theorem distFromSun_circular (p : PlanetCfg) (t : ℝ) (he : p.eccentricity = 0)
    (hR : 0 ≤ p.orbitRadius) : distFromSun p t = p.orbitRadius := by
  have hA := Real.sin_sq_add_cos_sq (planetOrbitAngle p t)
  have hI := Real.sin_sq_add_cos_sq (degToRad p.inclination)
  rw [distFromSun]
  simp only [planetPosition]
  rw [if_neg (by rw [he]; exact lt_irrefl 0), len3, dot3]
  exact sqrt_eval hR (by
    linear_combination (p.orbitRadius ^ 2) * hA +
      (p.orbitRadius ^ 2 * Real.sin (planetOrbitAngle p t) ^ 2) * hI)

/-- Elliptic case: the distance from the sun equals the polar-ellipse
radius `a*(1-e^2)/(1+e*cos(angle))`. -/
theorem distFromSun_elliptic (p : PlanetCfg) (t : ℝ) (he0 : 0 < p.eccentricity)
    (he1 : p.eccentricity < 1) (ha : 0 < p.orbitRadius) :
    distFromSun p t = p.orbitRadius * (1 - p.eccentricity * p.eccentricity) /
      (1 + p.eccentricity * Real.cos (planetOrbitAngle p t)) := by
  have hA := Real.sin_sq_add_cos_sq (planetOrbitAngle p t)
  have hI := Real.sin_sq_add_cos_sq (degToRad p.inclination)
  have hden : 0 < 1 + p.eccentricity * Real.cos (planetOrbitAngle p t) := by
    nlinarith [Real.neg_one_le_cos (planetOrbitAngle p t)]
  have hr : 0 ≤ p.orbitRadius * (1 - p.eccentricity * p.eccentricity) /
      (1 + p.eccentricity * Real.cos (planetOrbitAngle p t)) := by
    apply div_nonneg _ (le_of_lt hden)
    nlinarith [mul_lt_mul_of_pos_left he1 he0]
  rw [distFromSun]
  simp only [planetPosition]
  rw [if_pos he0, len3, dot3]
  refine sqrt_eval hr ?_
  set r := p.orbitRadius * (1 - p.eccentricity * p.eccentricity) /
    (1 + p.eccentricity * Real.cos (planetOrbitAngle p t))
  linear_combination (r ^ 2) * hA + (r ^ 2 * Real.sin (planetOrbitAngle p t) ^ 2) * hI

/-- C4: with eccentricity 0 the orbit is an exact circle of radius
`orbitRadius` (the inclination rotation preserves the distance); with
eccentricity `e` in `(0,1)` the distance from the parent stays within
`[a*(1-e), a*(1+e)]` and both bounds are attained over a full period. -/
theorem orbit_distance_bounds (p : PlanetCfg) :
    (p.eccentricity = 0 → 0 ≤ p.orbitRadius → ∀ t, distFromSun p t = p.orbitRadius) ∧
    (0 < p.eccentricity → p.eccentricity < 1 → 0 < p.orbitRadius → p.orbitSpeed ≠ 0 →
      (∀ t, p.orbitRadius * (1 - p.eccentricity) ≤ distFromSun p t ∧
        distFromSun p t ≤ p.orbitRadius * (1 + p.eccentricity)) ∧
      (∃ t, distFromSun p t = p.orbitRadius * (1 - p.eccentricity)) ∧
      (∃ t, distFromSun p t = p.orbitRadius * (1 + p.eccentricity))) := by
  constructor
  · exact fun he hR t => distFromSun_circular p t he hR
  · intro he0 he1 ha hω
    have hω01 : p.orbitSpeed * 0.1 ≠ 0 := mul_ne_zero hω (by norm_num)
    constructor
    · intro t
      have hden : 0 < 1 + p.eccentricity * Real.cos (planetOrbitAngle p t) := by
        nlinarith [Real.neg_one_le_cos (planetOrbitAngle p t)]
      have hae : (0 : ℝ) ≤ p.orbitRadius * (1 - p.eccentricity) * p.eccentricity :=
        mul_nonneg (mul_nonneg ha.le (by linarith)) he0.le
      have haep : (0 : ℝ) ≤ p.orbitRadius * (1 + p.eccentricity) * p.eccentricity :=
        mul_nonneg (mul_nonneg ha.le (by linarith)) he0.le
      rw [distFromSun_elliptic p t he0 he1 ha]
      constructor
      · rw [le_div_iff₀ hden]
        nlinarith [mul_le_mul_of_nonneg_left (Real.cos_le_one (planetOrbitAngle p t)) hae]
      · rw [div_le_iff₀ hden]
        nlinarith [mul_nonneg haep
          (by linarith [Real.neg_one_le_cos (planetOrbitAngle p t)] :
            (0 : ℝ) ≤ 1 + Real.cos (planetOrbitAngle p t))]
    · constructor
      · refine ⟨(0 - degToRad p.startAngle) / (p.orbitSpeed * 0.1), ?_⟩
        have hang : planetOrbitAngle p ((0 - degToRad p.startAngle) / (p.orbitSpeed * 0.1)) = 0 := by
          rw [planetOrbitAngle, mul_assoc, div_mul_cancel₀ _ hω01]
          ring
        rw [distFromSun_elliptic _ _ he0 he1 ha, hang, Real.cos_zero]
        rw [div_eq_iff (by nlinarith)]
        ring
      · refine ⟨(Real.pi - degToRad p.startAngle) / (p.orbitSpeed * 0.1), ?_⟩
        have hang : planetOrbitAngle p
            ((Real.pi - degToRad p.startAngle) / (p.orbitSpeed * 0.1)) = Real.pi := by
          rw [planetOrbitAngle, mul_assoc, div_mul_cancel₀ _ hω01]
          ring
        rw [distFromSun_elliptic _ _ he0 he1 ha, hang, Real.cos_pi]
        rw [div_eq_iff (by nlinarith)]
        ring

/-- C4 witness: a circular body with orbit radius 10 keeps distance 10,
and an eccentricity-1/2 body with orbit radius 2 attains periapsis
distance `2*(1-1/2)`. -/
theorem orbit_distance_bounds_witness :
    distFromSun ⟨"C", 1, 10, 5, 0, 30, 0, 0, none, []⟩ 2 = 10 ∧
    ∃ t, distFromSun ⟨"E", 1, 2, 5, 0, 0, 1/2, 0, none, []⟩ t = 2 * (1 - 1/2) :=
  ⟨(orbit_distance_bounds ⟨"C", 1, 10, 5, 0, 30, 0, 0, none, []⟩).1 rfl (by norm_num) 2,
   ((orbit_distance_bounds ⟨"E", 1, 2, 5, 0, 0, 1/2, 0, none, []⟩).2 (by norm_num)
     (by norm_num) (by norm_num) (by norm_num)).2.1⟩

/-! ## Camera transition state machine (main render loop) -/

/-- A camera focus target: the sun (`focusIndex = -1`), a planet index, or
a `"moon-p-m"` string. -/
inductive FocusTarget
  | sun
  | planet (i : ℕ)
  | moon (pi mi : ℕ)

/-- Camera state (the fields of `Camera` the transition machinery reads). -/
structure Camera where
  zoom : ℝ
  focusTarget : FocusTarget
  panX : ℝ
  panY : ℝ
  panZ : ℝ

/-- The `cameraTransition` record of the render loop. -/
structure Transition where
  active : Bool
  startZoom : ℝ
  targetZoom : ℝ
  startFocus : FocusTarget
  targetFocus : FocusTarget
  startFocusPos : Vec3
  targetFocusPos : Vec3
  progress : ℝ
  duration : ℝ

/-- The world position of a focus target (`calculateFocusPosition`): the
camera pan for the sun, the orbital position for a planet, and for a moon
the planet position plus the moon offset — the moon-mode formulas there
are the same expressions as in the render loop's moon pass, with
`rotationAngle = time * planet.rotationSpeed * 0.1`.  An out-of-range
index falls through to the camera pan (the source would fault on an
out-of-range moon index; such inputs are never produced). -/
def calculateFocusPosition (cfg : Config) (cam : Camera) (focus : FocusTarget)
    (t : ℝ) : Vec3 :=
  match focus with
  | .sun => ⟨cam.panX, cam.panY, cam.panZ⟩
  | .moon pIdx mIdx =>
    match cfg.planets[pIdx]? with
    | none => ⟨cam.panX, cam.panY, cam.panZ⟩
    | some planet =>
      match planet.moons[mIdx]? with
      | none => ⟨cam.panX, cam.panY, cam.panZ⟩
      | some moon =>
        let planetPos := planetPosition planet t
        let rotationAngle := t * planet.rotationSpeed * 0.1
        let moonAngle := t * moon.orbitSpeed * 0.1
        moonWorldPosition moon planetPos planet.axialTilt rotationAngle moonAngle
  | .planet i =>
    match cfg.planets[i]? with
    | some p => planetPosition p t
    | none => ⟨cam.panX, cam.panY, cam.panZ⟩

/-- Radius of the object a focus-change request targets (out-of-range
indices modelled as radius 0; the source would fault). -/
def targetRadiusFor (cfg : Config) (target : FocusTarget) : ℝ :=
  match target with
  | .sun => cfg.sun.radius
  | .planet i =>
    match cfg.planets[i]? with
    | some p => p.radius
    | none => 0
  | .moon pIdx mIdx =>
    match cfg.planets[pIdx]? with
    | some p =>
      match p.moons[mIdx]? with
      | some m => m.radius
      | none => 0
    | none => 0

/-- The focus-change request handler `transitionToPlanet`: computes the
clamped target zoom `max(10, min(3000, radius*8))`, captures
`camera.zoom` as the start zoom and the current focus target's position
as the start position, and restarts progress at 0 (the persistent
`duration` field is left unchanged). -/
def transitionToPlanet (cfg : Config) (cam : Camera) (tr : Transition)
    (target : FocusTarget) (accTime : ℝ) : Transition :=
  let targetRadius := targetRadiusFor cfg target
  let clampedZoom : ℝ := max 10 (min 3000 (targetRadius * 8))
  let startPos := calculateFocusPosition cfg cam cam.focusTarget accTime
  let targetPos := calculateFocusPosition cfg cam target accTime
  { active := true
    startZoom := cam.zoom
    targetZoom := clampedZoom
    startFocus := cam.focusTarget
    targetFocus := target
    startFocusPos := startPos
    targetFocusPos := targetPos
    progress := 0
    duration := tr.duration }

open Classical in
/-- The ease-in-out curve `t < 0.5 ? 2*t*t : 1 - pow(-2*t+2, 2)/2`. -/
def easeInOut (t : ℝ) : ℝ :=
  if t < 0.5 then 2 * t * t else 1 - (-2 * t + 2) ^ 2 / 2

/-- Result of one frame of the camera-transition part of `render`. -/
structure FrameOut where
  cam : Camera
  tr : Transition
  focus : Vec3

open Classical in
/-- One frame of the transition update in `render`: the first block
advances progress by `deltaTime / duration`, completes the transition at
progress 1 (snapping `camera.focusTarget`), and writes the eased
interpolated zoom into `camera.zoom`; the second block recomputes the
(moving) target focus position and produces the eased interpolated focus
point, falling back to the focused body's position (or the pan) when no
transition is active. -/
def renderFrameCamera (cfg : Config) (cam : Camera) (tr : Transition)
    (dt accTime : ℝ) : FrameOut :=
  let camTr :=
    if tr.active = true then
      let p1 := tr.progress + dt / tr.duration
      let done := if 1 ≤ p1 then ((1 : ℝ), false, tr.targetFocus)
        else (p1, true, cam.focusTarget)
      let eased := easeInOut done.1
      let zoom2 := tr.startZoom + (tr.targetZoom - tr.startZoom) * eased
      ({ cam with zoom := zoom2, focusTarget := done.2.2 },
        { tr with progress := done.1, active := done.2.1 })
    else (cam, tr)
  let cam1 := camTr.1
  let tr1 := camTr.2
  if tr1.active = true then
    let eased := easeInOut tr1.progress
    let newTarget := calculateFocusPosition cfg cam1 tr1.targetFocus accTime
    { cam := cam1
      tr := { tr1 with targetFocusPos := newTarget }
      focus := ⟨tr1.startFocusPos.x + (newTarget.x - tr1.startFocusPos.x) * eased,
        tr1.startFocusPos.y + (newTarget.y - tr1.startFocusPos.y) * eased,
        tr1.startFocusPos.z + (newTarget.z - tr1.startFocusPos.z) * eased⟩ }
  else
    match cam1.focusTarget with
    | .moon pIdx mIdx =>
      { cam := cam1, tr := tr1,
        focus := calculateFocusPosition cfg cam1 (.moon pIdx mIdx) accTime }
    | .planet i =>
      { cam := cam1, tr := tr1,
        focus :=
          match cfg.planets[i]? with
          | some p => planetPosition p accTime
          | none => ⟨cam1.panX, cam1.panY, cam1.panZ⟩ }
    | .sun => { cam := cam1, tr := tr1, focus := ⟨cam1.panX, cam1.panY, cam1.panZ⟩ }

/-- A one-planet configuration used for the transition counterexample. -/
def exampleConfig : Config :=
  ⟨⟨5⟩, [⟨"P", 10, 10, 10, 0, 0, 0, 0, none, []⟩]⟩

/-- Camera focused on the sun, used for the transition counterexample. -/
def exampleCamera : Camera := ⟨800, .sun, 0, 0, 0⟩

/-- An in-flight sun-to-planet transition at progress 0.35. -/
def exampleTransition : Transition :=
  ⟨true, 800, 80, .sun, .planet 0, ⟨0, 0, 0⟩, ⟨10, 0, 0⟩, 0.35, 1.5⟩

/-- C2 counterexample: after a frame advances the example transition to
progress 0.5, the interpolated focus position is `(5, 0, 0)` (halfway to
the planet at `(10, 0, 0)`), but a focus-change request issued at that
moment records start focus position `(0, 0, 0)` — the OLD focus target's
(the sun's) position, not the current interpolated position. -/
theorem retarget_start_position_counterexample :
    (transitionToPlanet exampleConfig
        (renderFrameCamera exampleConfig exampleCamera exampleTransition 0.225 0).cam
        (renderFrameCamera exampleConfig exampleCamera exampleTransition 0.225 0).tr
        (.planet 0) 0).startFocusPos ≠
      (renderFrameCamera exampleConfig exampleCamera exampleTransition 0.225 0).focus ∧
    (renderFrameCamera exampleConfig exampleCamera exampleTransition 0.225 0).tr.active = true ∧
    (renderFrameCamera exampleConfig exampleCamera exampleTransition 0.225 0).tr.progress = 0.5 := by
  have hfo : renderFrameCamera exampleConfig exampleCamera exampleTransition 0.225 0 =
      { cam := { exampleCamera with zoom := 440, focusTarget := .sun },
        tr :=
          { exampleTransition with
            progress := 0.5, active := true, targetFocusPos := ⟨10, 0, 0⟩ },
        focus := ⟨5, 0, 0⟩ } := by
    rw [renderFrameCamera]
    simp only [exampleTransition, exampleCamera, exampleConfig]
    norm_num [easeInOut, calculateFocusPosition, planetPosition, planetOrbitAngle, degToRad,
      Real.cos_zero, Real.sin_zero]
  rw [hfo]
  refine ⟨?_, rfl, rfl⟩
  rw [transitionToPlanet]
  simp only [calculateFocusPosition, exampleCamera]
  simp only [Vec3.mk.injEq, ne_eq, not_and]
  intro h
  norm_num at h

/-- C2 amended: a focus-change request issued right after a frame while
the transition is still in progress uses the current interpolated zoom as
the new start zoom, but uses the OLD focus target's instantaneous
position (the camera's focus target is unchanged while a transition is
active) as the new start focus position, not the interpolated position. -/
theorem retarget_uses_current_zoom_and_old_focus (cfg : Config) (cam : Camera)
    (tr : Transition) (target : FocusTarget) (dt accTime : ℝ)
    (hact : tr.active = true) (hlt : tr.progress + dt / tr.duration < 1) :
    (transitionToPlanet cfg (renderFrameCamera cfg cam tr dt accTime).cam
        (renderFrameCamera cfg cam tr dt accTime).tr target accTime).startZoom =
      tr.startZoom + (tr.targetZoom - tr.startZoom) *
        easeInOut (tr.progress + dt / tr.duration) ∧
    (transitionToPlanet cfg (renderFrameCamera cfg cam tr dt accTime).cam
        (renderFrameCamera cfg cam tr dt accTime).tr target accTime).startFocusPos =
      calculateFocusPosition cfg (renderFrameCamera cfg cam tr dt accTime).cam
        cam.focusTarget accTime ∧
    (renderFrameCamera cfg cam tr dt accTime).cam.focusTarget = cam.focusTarget := by
  have hnot : (1 ≤ tr.progress + dt / tr.duration) = False :=
    eq_false (not_le.mpr hlt)
  simp only [renderFrameCamera, transitionToPlanet, hact, hnot, eq_self_iff_true,
    if_true, ite_true, if_false, ite_false]
  exact ⟨trivial, trivial, trivial⟩

/-- C2 witness: the amended retarget behaviour at the concrete example
state (active transition, progress 0.35, frame step 0.225 seconds). -/
theorem retarget_uses_current_zoom_and_old_focus_witness :
    exampleTransition.active = true ∧
    exampleTransition.progress + 0.225 / exampleTransition.duration < 1 ∧
    ((transitionToPlanet exampleConfig
        (renderFrameCamera exampleConfig exampleCamera exampleTransition 0.225 0).cam
        (renderFrameCamera exampleConfig exampleCamera exampleTransition 0.225 0).tr
        (.planet 0) 0).startZoom =
      exampleTransition.startZoom +
        (exampleTransition.targetZoom - exampleTransition.startZoom) *
          easeInOut (exampleTransition.progress + 0.225 / exampleTransition.duration) ∧
    (transitionToPlanet exampleConfig
        (renderFrameCamera exampleConfig exampleCamera exampleTransition 0.225 0).cam
        (renderFrameCamera exampleConfig exampleCamera exampleTransition 0.225 0).tr
        (.planet 0) 0).startFocusPos =
      calculateFocusPosition exampleConfig
        (renderFrameCamera exampleConfig exampleCamera exampleTransition 0.225 0).cam
        exampleCamera.focusTarget 0 ∧
    (renderFrameCamera exampleConfig exampleCamera exampleTransition
        0.225 0).cam.focusTarget = exampleCamera.focusTarget) :=
  ⟨rfl, by norm_num [exampleTransition],
    retarget_uses_current_zoom_and_old_focus exampleConfig exampleCamera exampleTransition
      (.planet 0) 0.225 0 rfl (by norm_num [exampleTransition])⟩

/-! ## CME particle lifecycle (`spawnCME` / `updateCMEParticles`) -/

/-- A CME particle: position, velocity, remaining life and point size. -/
structure Particle where
  x : ℝ
  y : ℝ
  z : ℝ
  vx : ℝ
  vy : ℝ
  vz : ℝ
  life : ℝ
  size : ℝ

/-- The per-particle `Math.random()` draws consumed when one burst member
is created: three velocity spreads, the speed draw and the size draw. -/
structure SpawnDraw where
  r1 : ℝ
  r2 : ℝ
  r3 : ℝ
  rSpeed : ℝ
  rSize : ℝ

/-- The fixed particle cap `maxParticles = 200`. -/
def maxParticles : ℕ := 200

/-- One freshly spawned particle, exactly as the push in `spawnCME`
builds it: position on the sun surface from the burst's spherical draws,
velocity radially outward plus spread, scaled by the speed draw, initial
life `1.0`, size `2 + random * 4`. -/
def mkCMEParticle (theta phi sunRadius : ℝ) (d : SpawnDraw) : Particle :=
  let spawnX := sunRadius * Real.sin phi * Real.cos theta
  let spawnY := sunRadius * Real.sin phi * Real.sin theta
  let spawnZ := sunRadius * Real.cos phi
  let spread : ℝ := 0.3
  let vx := spawnX / sunRadius + (d.r1 - 0.5) * spread
  let vy := spawnY / sunRadius + (d.r2 - 0.5) * spread
  let vz := spawnZ / sunRadius + (d.r3 - 0.5) * spread
  let speed := 0.5 + d.rSpeed * 1.0
  ⟨spawnX, spawnY, spawnZ, vx * speed, vy * speed, vz * speed, 1.0, 2 + d.rSize * 4⟩

/-- The spawn loop of `spawnCME`: each iteration breaks as soon as the
active list has reached `maxParticles`, so exactly the first
`maxParticles - length` burst members are appended (`draws` holds one
entry per loop iteration, its length being the random `particleCount`). -/
def spawnCME (ps : List Particle) (theta phi sunRadius : ℝ)
    (draws : List SpawnDraw) : List Particle :=
  ps ++ (draws.map (mkCMEParticle theta phi sunRadius)).take (maxParticles - ps.length)

/-- One integration step of `updateCMEParticles` on a single particle:
position advanced by `velocity * deltaTime * 10`, life decremented by
`deltaTime * 0.3`. -/
def advanceCME (dt : ℝ) (p : Particle) : Particle :=
  { p with
    x := p.x + p.vx * dt * 10
    y := p.y + p.vy * dt * 10
    z := p.z + p.vz * dt * 10
    life := p.life - dt * 0.3 }

open Classical in
/-- The backwards splice loop of `updateCMEParticles`: every particle is
advanced, and those whose life has dropped to `<= 0` are removed within
the same tick. -/
def updateCMEParticles (dt : ℝ) (ps : List Particle) : List Particle :=
  (ps.map (advanceCME dt)).filter (fun p => decide (0 < p.life))

/-- One event of the particle lifecycle: a spawn request or an update
tick. -/
inductive CMETick
  | spawn (theta phi sunRadius : ℝ) (draws : List SpawnDraw)
  | update (dt : ℝ)

/-- Applying one lifecycle event to the active particle list. -/
def cmeStep (ps : List Particle) : CMETick → List Particle
  | .spawn theta phi r ds => spawnCME ps theta phi r ds
  | .update dt => updateCMEParticles dt ps

/-- Running a sequence of lifecycle events from the initially empty
particle array. -/
def runCMETicks (ts : List CMETick) : List Particle := ts.foldl cmeStep []

/-- Spawning never pushes the active count above the cap. -/
theorem spawnCME_length_le (ps : List Particle) (theta phi r : ℝ)
    (draws : List SpawnDraw) (h : ps.length ≤ maxParticles) :
    (spawnCME ps theta phi r draws).length ≤ maxParticles := by
  simp only [spawnCME, List.length_append, List.length_take, List.length_map]
  omega

/-- Updating never increases the active count. -/
theorem updateCMEParticles_length_le (dt : ℝ) (ps : List Particle) :
    (updateCMEParticles dt ps).length ≤ ps.length := by
  calc (updateCMEParticles dt ps).length ≤ (ps.map (advanceCME dt)).length :=
        List.length_filter_le _ _
    _ = ps.length := List.length_map _ _

/-- The cap is an invariant of every event sequence. -/
theorem cmeRun_length_le (ts : List CMETick) (ps : List Particle)
    (h : ps.length ≤ maxParticles) : (ts.foldl cmeStep ps).length ≤ maxParticles := by
  induction ts generalizing ps with
  | nil => exact h
  | cons t ts ih =>
    refine ih _ ?_
    cases t with
    | spawn theta phi r ds => exact spawnCME_length_le ps theta phi r ds h
    | update dt => exact le_trans (updateCMEParticles_length_le dt ps) h

/-- C7: over every sequence of spawn and update events starting from the
empty particle array the active count never exceeds the fixed maximum of
200; and on an update tick with positive elapsed time every surviving
particle is the advanced image of a particle of the previous tick with
strictly smaller life, and no surviving particle has life at or below 0
(particles whose life reaches `<= 0` are removed within the tick). -/
theorem cme_particle_invariants (ts : List CMETick) (dt : ℝ)
    (ps : List Particle) (hdt : 0 < dt) :
    (runCMETicks ts).length ≤ 200 ∧
    ∀ q ∈ updateCMEParticles dt ps,
      (∃ p ∈ ps, q = advanceCME dt p ∧ q.life < p.life) ∧ 0 < q.life := by
  constructor
  · exact cmeRun_length_le ts [] (by simp [maxParticles])
  · intro q hq
    rw [updateCMEParticles, List.mem_filter] at hq
    obtain ⟨hmem, hpred⟩ := hq
    obtain ⟨p, hp, rfl⟩ := List.mem_map.mp hmem
    have hlife : 0 < (advanceCME dt p).life := of_decide_eq_true hpred
    refine ⟨⟨p, hp, rfl, ?_⟩, hlife⟩
    show (advanceCME dt p).life < p.life
    simp only [advanceCME]
    have : 0 < dt * 0.3 := by nlinarith
    linarith

/-- C7 witness: the invariants instantiated at a one-update event
sequence and a positive tick on the empty list. -/
theorem cme_particle_invariants_witness :
    0 < (1 : ℝ) ∧
    ((runCMETicks [CMETick.update 1]).length ≤ 200 ∧
      ∀ q ∈ updateCMEParticles 1 ([] : List Particle),
        (∃ p ∈ ([] : List Particle), q = advanceCME 1 p ∧ q.life < p.life) ∧ 0 < q.life) :=
  ⟨by norm_num, cme_particle_invariants [CMETick.update 1] 1 [] (by norm_num)⟩

end

/-! ## Render-state cache (`glStateCache`, `bindTextureOptimized`,
`setUniform1iCached` in js/renderer.js), modelled with a call log -/

/-- The boolean/enable-style uniforms the dispatcher caches, one per
`last*` field of `glStateCache`. -/
inductive BoolUniform
  | emissive
  | useTexture
  | useClouds
  | useSpecular
  | useNormal
  | useNight
  | checkShadow
  | checkPlanetShadow
deriving DecidableEq

/-- The `glStateCache` record: last bound texture per unit (the
`boundTextures` map) and last written value per cached boolean uniform
(`null` entries are `none`). -/
structure GLStateCache where
  boundTextures : ℕ → Option ℕ
  bools : BoolUniform → Option ℤ

/-- The cache as initialized in the source: empty map, all-null fields. -/
def initialGLStateCache : GLStateCache := ⟨fun _ => none, fun _ => none⟩

/-- An underlying graphics-API call issued by the dispatcher. -/
inductive APICall
  | activeTexture (unit : ℕ)
  | bindTexture (tex : ℕ)
  | uniform1i (u : BoolUniform) (v : ℤ)
deriving DecidableEq

/-- The `bindTextureOptimized` helper: when the cached texture for the
unit differs from the request it issues `activeTexture` plus
`bindTexture` and records the binding; otherwise it does nothing. -/
def bindTextureOptimized (c : GLStateCache) (unit tex : ℕ) :
    GLStateCache × List APICall :=
  if c.boundTextures unit = some tex then (c, [])
  else
    ({ c with boundTextures := fun u => if u = unit then some tex else c.boundTextures u },
      [.activeTexture unit, .bindTexture tex])

/-- The `setUniform1iCached` helper: writes the uniform and updates the
cache only when the cached value differs. -/
def setUniform1iCached (c : GLStateCache) (u : BoolUniform) (v : ℤ) :
    GLStateCache × List APICall :=
  if c.bools u = some v then (c, [])
  else ({ c with bools := fun k => if k = u then some v else c.bools k }, [.uniform1i u v])

/-- Number of texture-bind calls in a call log. -/
def countBindCalls (l : List APICall) : ℕ :=
  (l.filter fun c => match c with | .bindTexture _ => true | _ => false).length

/-- Number of uniform-write calls in a call log. -/
def countUniformCalls (l : List APICall) : ℕ :=
  (l.filter fun c => match c with | .uniform1i _ _ => true | _ => false).length

/-- C8: starting from any cache that does not already hold the requested
value, issuing the same texture-bind request twice in a row produces
exactly one underlying `bindTexture` call and the same boolean-uniform
write twice in a row produces exactly one underlying `uniform1i` call:
the second, identical request issues nothing and leaves the cache
unchanged, and the cache records the value right after the actual
write. -/
theorem state_cache_single_call (c : GLStateCache) (unit tex : ℕ)
    (u : BoolUniform) (v : ℤ)
    (htex : c.boundTextures unit ≠ some tex) (hu : c.bools u ≠ some v) :
    countBindCalls ((bindTextureOptimized c unit tex).2 ++
      (bindTextureOptimized (bindTextureOptimized c unit tex).1 unit tex).2) = 1 ∧
    (bindTextureOptimized (bindTextureOptimized c unit tex).1 unit tex).2 = [] ∧
    (bindTextureOptimized (bindTextureOptimized c unit tex).1 unit tex).1 =
      (bindTextureOptimized c unit tex).1 ∧
    (bindTextureOptimized c unit tex).1.boundTextures unit = some tex ∧
    countUniformCalls ((setUniform1iCached c u v).2 ++
      (setUniform1iCached (setUniform1iCached c u v).1 u v).2) = 1 ∧
    (setUniform1iCached (setUniform1iCached c u v).1 u v).2 = [] ∧
    (setUniform1iCached (setUniform1iCached c u v).1 u v).1 =
      (setUniform1iCached c u v).1 ∧
    (setUniform1iCached c u v).1.bools u = some v := by
  have h1 : (bindTextureOptimized c unit tex).1.boundTextures unit = some tex := by
    rw [bindTextureOptimized, if_neg htex]
    simp
  have h2 : (setUniform1iCached c u v).1.bools u = some v := by
    rw [setUniform1iCached, if_neg hu]
    simp
  have hb2 : bindTextureOptimized (bindTextureOptimized c unit tex).1 unit tex =
      ((bindTextureOptimized c unit tex).1, []) := by
    rw [bindTextureOptimized, if_pos h1]
  have hu2 : setUniform1iCached (setUniform1iCached c u v).1 u v =
      ((setUniform1iCached c u v).1, []) := by
    rw [setUniform1iCached, if_pos h2]
  refine ⟨?_, by rw [hb2], by rw [hb2], h1, ?_, by rw [hu2], by rw [hu2], h2⟩
  · rw [hb2]
    rw [bindTextureOptimized, if_neg htex]
    rfl
  · rw [hu2]
    rw [setUniform1iCached, if_neg hu]
    rfl

/-- C8 witness: the single-call property at the initial (empty) cache,
texture unit 0 with texture handle 5 and the emissive flag set to 1. -/
theorem state_cache_single_call_witness :
    initialGLStateCache.boundTextures 0 ≠ some 5 ∧
    initialGLStateCache.bools BoolUniform.emissive ≠ some 1 ∧
    (countBindCalls ((bindTextureOptimized initialGLStateCache 0 5).2 ++
      (bindTextureOptimized (bindTextureOptimized initialGLStateCache 0 5).1 0 5).2) = 1 ∧
    (bindTextureOptimized (bindTextureOptimized initialGLStateCache 0 5).1 0 5).2 = [] ∧
    (bindTextureOptimized (bindTextureOptimized initialGLStateCache 0 5).1 0 5).1 =
      (bindTextureOptimized initialGLStateCache 0 5).1 ∧
    (bindTextureOptimized initialGLStateCache 0 5).1.boundTextures 0 = some 5 ∧
    countUniformCalls ((setUniform1iCached initialGLStateCache BoolUniform.emissive 1).2 ++
      (setUniform1iCached (setUniform1iCached initialGLStateCache BoolUniform.emissive 1).1
        BoolUniform.emissive 1).2) = 1 ∧
    (setUniform1iCached (setUniform1iCached initialGLStateCache BoolUniform.emissive 1).1
      BoolUniform.emissive 1).2 = [] ∧
    (setUniform1iCached (setUniform1iCached initialGLStateCache BoolUniform.emissive 1).1
      BoolUniform.emissive 1).1 =
      (setUniform1iCached initialGLStateCache BoolUniform.emissive 1).1 ∧
    (setUniform1iCached initialGLStateCache BoolUniform.emissive 1).1.bools
      BoolUniform.emissive = some 1) :=
  ⟨by decide, by decide,
    state_cache_single_call initialGLStateCache 0 5 BoolUniform.emissive 1
      (by decide) (by decide)⟩

/-! ## Refinement of the uncached renderSphere by the state-cached one -/

noncomputable section

/-- A 4x4 matrix, row and column indexed. -/
def Mat4 : Type := Fin 4 → Fin 4 → ℝ

/-- Matrix product of 4x4 matrices. -/
def mat4Mul (a b : Mat4) : Mat4 := fun i j => ∑ k : Fin 4, a i k * b k j

/-- Entry `(i, j)` of a 3x3 matrix embedded in 4x4 index space. -/
def mat3Entry (m : Mat3) (i j : Fin 4) : ℝ :=
  let col := if (j : ℕ) = 0 then m.col0 else if (j : ℕ) = 1 then m.col1 else m.col2
  if (i : ℕ) = 0 then col.x else if (i : ℕ) = 1 then col.y else col.z

open Classical in
/-- The translation matrix produced by `mat4.translate` on the identity. -/
def translationMat4 (v : Vec3) : Mat4 := fun i j =>
  if (j : ℕ) = 3 then
    (if (i : ℕ) = 0 then v.x else if (i : ℕ) = 1 then v.y else if (i : ℕ) = 2 then v.z else 1)
  else if i = j then 1 else 0

open Classical in
/-- The `tempMatrix` of renderSphere: the fused tilt-and-spin block over
an identity 4x4. -/
def fused4 (tiltDeg rot : ℝ) : Mat4 := fun i j =>
  if (i : ℕ) < 3 ∧ (j : ℕ) < 3 then mat3Entry (fusedTiltSpin tiltDeg rot) i j
  else if i = j then 1 else 0

open Classical in
/-- The uniform scale matrix applied by `mat4.scale` with `[r, r, r]`. -/
def scaleMat4 (r : ℝ) : Mat4 := fun i j =>
  if i = j then (if (i : ℕ) < 3 then r else 1) else 0

/-- The model matrix built at the top of both renderSphere versions:
translate to the world position, multiply in the fused tilt-and-spin
block when the axial tilt is defined, scale by the radius. -/
def sphereModelMatrix (radius : ℝ) (position : Vec3) (axialTilt : Option ℝ)
    (rotationAngle : ℝ) : Mat4 :=
  let m0 := translationMat4 position
  let m1 :=
    match axialTilt with
    | some tilt => mat4Mul m0 (fused4 tilt rotationAngle)
    | none => m0
  mat4Mul m1 (scaleMat4 radius)

/-- The GL uniform store of the sphere shader program.  The eight
boolean/enable uniforms that the dispatcher caches are kept in the keyed
`flags` map (mirroring the `cacheName`-keyed access in the source); every
other uniform is a named field.  `none` means "never written". -/
@[ext]
structure GLUniforms where
  model : Option Mat4
  color : Option Vec3
  lightPos : Option Vec3
  time : Option ℝ
  showTerminator : Option ℤ
  moonPos : Option Vec3
  moonRadius : Option ℝ
  planetPos : Option Vec3
  planetRadius : Option ℝ
  textureSampler : Option ℤ
  cloudSampler : Option ℤ
  cloudRotation : Option ℝ
  specularSampler : Option ℤ
  normalSampler : Option ℤ
  nightSampler : Option ℤ
  flags : BoolUniform → Option ℤ

/-- One `drawElements(TRIANGLES, indexCount, UNSIGNED_SHORT, 0)` call
with the bound index buffer. -/
structure DrawElementsCall where
  indexBuffer : ℕ
  indexCount : ℕ

/-- The observable graphics state: uniform values, the texture bound to
each unit, the active texture unit selector, and the draw calls issued. -/
@[ext]
structure GLState where
  uniforms : GLUniforms
  texUnits : ℕ → Option ℕ
  activeUnit : ℕ
  draws : List DrawElementsCall

/-- The sphere geometry buffer handles and index count. -/
structure SphereBuffers where
  position : ℕ
  normal : ℕ
  texCoord : ℕ
  indices : ℕ
  indexCount : ℕ

/-- The celestial-body fields renderSphere reads. -/
structure BodyObj where
  name : String
  radius : ℝ
  color : Vec3
  emissive : Bool

/-- The argument list of renderSphere (both versions take the same). -/
structure SphereArgs where
  object : BodyObj
  position : Vec3
  moonPos : Option Vec3
  moonRadius : Option ℝ
  axialTilt : Option ℝ
  rotationAngle : ℝ
  texture : Option ℕ
  cloudTexture : Option ℕ
  cloudRotation : ℝ
  specularTexture : Option ℕ
  normalTexture : Option ℕ
  nightTexture : Option ℕ
  planetPos : Option Vec3
  planetRadius : Option ℝ
  time : ℝ
  buffers : SphereBuffers

/-- A direct (uncached) boolean-uniform write `gl.uniform1i(loc, v)`. -/
def glUniformFlag (st : GLState) (k : BoolUniform) (v : ℤ) : GLState :=
  { st with uniforms.flags := fun k2 => if k2 = k then some v else st.uniforms.flags k2 }

/-- A direct texture bind: `gl.activeTexture(TEXTURE0 + unit)` followed
by `gl.bindTexture(TEXTURE_2D, tex)`. -/
def glBindTexture (st : GLState) (unit tex : ℕ) : GLState :=
  { st with
    activeUnit := unit
    texUnits := fun u => if u = unit then some tex else st.texUnits u }

/-- `bindTextureOptimized` acting on the graphics state and cache. -/
def bindTextureOptimizedGL (sc : GLState × GLStateCache) (unit tex : ℕ) :
    GLState × GLStateCache :=
  if sc.2.boundTextures unit = some tex then sc
  else
    (glBindTexture sc.1 unit tex,
      { sc.2 with boundTextures := fun u => if u = unit then some tex else sc.2.boundTextures u })

/-- `setUniform1iCached` acting on the graphics state and cache. -/
def setUniform1iCachedGL (sc : GLState × GLStateCache) (k : BoolUniform) (v : ℤ) :
    GLState × GLStateCache :=
  if sc.2.bools k = some v then sc
  else
    (glUniformFlag sc.1 k v,
      { sc.2 with bools := fun k2 => if k2 = k then some v else sc.2.bools k2 })

/-- Model matrix, color and light-position writes (all unconditional). -/
def headWrites (a : SphereArgs) (st : GLState) : GLState :=
  { st with
    uniforms.model := some (sphereModelMatrix a.object.radius a.position a.axialTilt
      a.rotationAngle)
    uniforms.color := some a.object.color
    uniforms.lightPos := some ⟨0, 0, 0⟩ }

/-- Time and terminator writes (unconditional; `time || 0` yields the
same number as `time`, and the terminator flag is the Earth name test). -/
def midWrites (a : SphereArgs) (st : GLState) : GLState :=
  { st with
    uniforms.time := some a.time
    uniforms.showTerminator := some (if a.object.name = "Earth" then 1 else 0) }

open Classical in
/-- Moon-shadow uniforms in the uncached version: when
`moonPos && moonRadius` is truthy, write positions and enable the check;
otherwise only disable the check. -/
def shadowWritesOld (a : SphereArgs) (st : GLState) : GLState :=
  match a.moonPos, a.moonRadius with
  | some mp, some mr =>
    if mr ≠ 0 then
      glUniformFlag
        { st with uniforms.moonPos := some mp, uniforms.moonRadius := some mr }
        .checkShadow 1
    else glUniformFlag st .checkShadow 0
  | _, _ => glUniformFlag st .checkShadow 0

open Classical in
/-- Moon-shadow uniforms in the cached version (the flag goes through the
cache). -/
def shadowWritesNew (a : SphereArgs) (sc : GLState × GLStateCache) :
    GLState × GLStateCache :=
  match a.moonPos, a.moonRadius with
  | some mp, some mr =>
    if mr ≠ 0 then
      setUniform1iCachedGL
        ({ sc.1 with uniforms.moonPos := some mp, uniforms.moonRadius := some mr }, sc.2)
        .checkShadow 1
    else setUniform1iCachedGL sc .checkShadow 0
  | _, _ => setUniform1iCachedGL sc .checkShadow 0

open Classical in
/-- Planet-shadow (lunar eclipse) uniforms, uncached version. -/
def planetShadowWritesOld (a : SphereArgs) (st : GLState) : GLState :=
  match a.planetPos, a.planetRadius with
  | some pp, some pr =>
    if pr ≠ 0 then
      glUniformFlag
        { st with uniforms.planetPos := some pp, uniforms.planetRadius := some pr }
        .checkPlanetShadow 1
    else glUniformFlag st .checkPlanetShadow 0
  | _, _ => glUniformFlag st .checkPlanetShadow 0

open Classical in
/-- Planet-shadow (lunar eclipse) uniforms, cached version. -/
def planetShadowWritesNew (a : SphereArgs) (sc : GLState × GLStateCache) :
    GLState × GLStateCache :=
  match a.planetPos, a.planetRadius with
  | some pp, some pr =>
    if pr ≠ 0 then
      setUniform1iCachedGL
        ({ sc.1 with uniforms.planetPos := some pp, uniforms.planetRadius := some pr }, sc.2)
        .checkPlanetShadow 1
    else setUniform1iCachedGL sc .checkPlanetShadow 0
  | _, _ => setUniform1iCachedGL sc .checkPlanetShadow 0

/-- Base texture block, uncached: bind unit 0, write the sampler, enable
the flag; or disable the flag. -/
def textureWritesOld (a : SphereArgs) (st : GLState) : GLState :=
  match a.texture with
  | some tex =>
    glUniformFlag
      { (glBindTexture st 0 tex) with uniforms.textureSampler := some 0 } .useTexture 1
  | none => glUniformFlag st .useTexture 0

/-- Base texture block, cached. -/
def textureWritesNew (a : SphereArgs) (sc : GLState × GLStateCache) :
    GLState × GLStateCache :=
  match a.texture with
  | some tex =>
    let sc2 := bindTextureOptimizedGL sc 0 tex
    setUniform1iCachedGL
      ({ sc2.1 with uniforms.textureSampler := some 0 }, sc2.2) .useTexture 1
  | none => setUniform1iCachedGL sc .useTexture 0

open Classical in
/-- Cloud block, uncached: active only for a present texture on an
Earth-named body; the rotation uniform is written in both branches. -/
def cloudWritesOld (a : SphereArgs) (st : GLState) : GLState :=
  match a.cloudTexture with
  | some tex =>
    if a.object.name = "Earth" then
      { (glUniformFlag
          { (glBindTexture st 1 tex) with uniforms.cloudSampler := some 1 } .useClouds 1) with
        uniforms.cloudRotation := some a.cloudRotation }
    else
      { (glUniformFlag st .useClouds 0) with uniforms.cloudRotation := some 0 }
  | none => { (glUniformFlag st .useClouds 0) with uniforms.cloudRotation := some 0 }

open Classical in
/-- Cloud block, cached. -/
def cloudWritesNew (a : SphereArgs) (sc : GLState × GLStateCache) :
    GLState × GLStateCache :=
  match a.cloudTexture with
  | some tex =>
    if a.object.name = "Earth" then
      let sc2 := bindTextureOptimizedGL sc 1 tex
      let sc3 := setUniform1iCachedGL
        ({ sc2.1 with uniforms.cloudSampler := some 1 }, sc2.2) .useClouds 1
      ({ sc3.1 with uniforms.cloudRotation := some a.cloudRotation }, sc3.2)
    else
      let sc3 := setUniform1iCachedGL sc .useClouds 0
      ({ sc3.1 with uniforms.cloudRotation := some 0 }, sc3.2)
  | none =>
    let sc3 := setUniform1iCachedGL sc .useClouds 0
    ({ sc3.1 with uniforms.cloudRotation := some 0 }, sc3.2)

open Classical in
/-- Specular block, uncached. -/
def specularWritesOld (a : SphereArgs) (st : GLState) : GLState :=
  match a.specularTexture with
  | some tex =>
    if a.object.name = "Earth" then
      glUniformFlag
        { (glBindTexture st 2 tex) with uniforms.specularSampler := some 2 } .useSpecular 1
    else glUniformFlag st .useSpecular 0
  | none => glUniformFlag st .useSpecular 0

open Classical in
/-- Specular block, cached. -/
def specularWritesNew (a : SphereArgs) (sc : GLState × GLStateCache) :
    GLState × GLStateCache :=
  match a.specularTexture with
  | some tex =>
    if a.object.name = "Earth" then
      let sc2 := bindTextureOptimizedGL sc 2 tex
      setUniform1iCachedGL
        ({ sc2.1 with uniforms.specularSampler := some 2 }, sc2.2) .useSpecular 1
    else setUniform1iCachedGL sc .useSpecular 0
  | none => setUniform1iCachedGL sc .useSpecular 0

open Classical in
/-- Normal-map block, uncached. -/
def normalWritesOld (a : SphereArgs) (st : GLState) : GLState :=
  match a.normalTexture with
  | some tex =>
    if a.object.name = "Earth" then
      glUniformFlag
        { (glBindTexture st 3 tex) with uniforms.normalSampler := some 3 } .useNormal 1
    else glUniformFlag st .useNormal 0
  | none => glUniformFlag st .useNormal 0

open Classical in
/-- Normal-map block, cached. -/
def normalWritesNew (a : SphereArgs) (sc : GLState × GLStateCache) :
    GLState × GLStateCache :=
  match a.normalTexture with
  | some tex =>
    if a.object.name = "Earth" then
      let sc2 := bindTextureOptimizedGL sc 3 tex
      setUniform1iCachedGL
        ({ sc2.1 with uniforms.normalSampler := some 3 }, sc2.2) .useNormal 1
    else setUniform1iCachedGL sc .useNormal 0
  | none => setUniform1iCachedGL sc .useNormal 0

open Classical in
/-- Night-map block, uncached. -/
def nightWritesOld (a : SphereArgs) (st : GLState) : GLState :=
  match a.nightTexture with
  | some tex =>
    if a.object.name = "Earth" then
      glUniformFlag
        { (glBindTexture st 4 tex) with uniforms.nightSampler := some 4 } .useNight 1
    else glUniformFlag st .useNight 0
  | none => glUniformFlag st .useNight 0

open Classical in
/-- Night-map block, cached. -/
def nightWritesNew (a : SphereArgs) (sc : GLState × GLStateCache) :
    GLState × GLStateCache :=
  match a.nightTexture with
  | some tex =>
    if a.object.name = "Earth" then
      let sc2 := bindTextureOptimizedGL sc 4 tex
      setUniform1iCachedGL
        ({ sc2.1 with uniforms.nightSampler := some 4 }, sc2.2) .useNight 1
    else setUniform1iCachedGL sc .useNight 0
  | none => setUniform1iCachedGL sc .useNight 0

/-- The final attribute setup and `drawElements` call (identical in both
versions). -/
def drawWrites (a : SphereArgs) (st : GLState) : GLState :=
  { st with draws := st.draws ++ [⟨a.buffers.indices, a.buffers.indexCount⟩] }

/-- The older renderSphere that writes every uniform and binds every
texture unconditionally. -/
def renderSphereUncached (st : GLState) (a : SphereArgs) : GLState :=
  let st := headWrites a st
  let st := glUniformFlag st .emissive (if a.object.emissive then 1 else 0)
  let st := midWrites a st
  let st := shadowWritesOld a st
  let st := planetShadowWritesOld a st
  let st := textureWritesOld a st
  let st := cloudWritesOld a st
  let st := specularWritesOld a st
  let st := normalWritesOld a st
  let st := nightWritesOld a st
  drawWrites a st

/-- The state-cached renderSphere of js/renderer.js: the same write
sequence, with boolean uniforms and texture binds going through the
`glStateCache` helpers. -/
def renderSphereCached (sc : GLState × GLStateCache) (a : SphereArgs) :
    GLState × GLStateCache :=
  let sc := (headWrites a sc.1, sc.2)
  let sc := setUniform1iCachedGL sc .emissive (if a.object.emissive then 1 else 0)
  let sc := (midWrites a sc.1, sc.2)
  let sc := shadowWritesNew a sc
  let sc := planetShadowWritesNew a sc
  let sc := textureWritesNew a sc
  let sc := cloudWritesNew a sc
  let sc := specularWritesNew a sc
  let sc := normalWritesNew a sc
  let sc := nightWritesNew a sc
  (drawWrites a sc.1, sc.2)

/-- The cache agrees with the graphics state: every cached texture-unit
entry names the texture actually bound there, and every cached boolean
equals the uniform's current value. -/
def cacheConsistent (st : GLState) (c : GLStateCache) : Prop :=
  (∀ u t, c.boundTextures u = some t → st.texUnits u = some t) ∧
  (∀ k v, c.bools k = some v → st.uniforms.flags k = some v)

/-- Simulation relation between an uncached run state and a cached run
state: the observable components agree and the cache stays consistent
with the cached state. -/
def simRel (stO stN : GLState) (c : GLStateCache) : Prop :=
  stN.uniforms = stO.uniforms ∧ stN.texUnits = stO.texUnits ∧
  stN.draws = stO.draws ∧ cacheConsistent stN c

/-- Identical plain uniform writes (no flags touched) preserve the
simulation relation. -/
theorem simRel_plain (f : GLUniforms → GLUniforms)
    (hf : ∀ u, (f u).flags = u.flags) {stO stN : GLState} {c : GLStateCache}
    (h : simRel stO stN c) :
    simRel { stO with uniforms := f stO.uniforms }
      { stN with uniforms := f stN.uniforms } c := by
  obtain ⟨hu, ht, hd, hcb, hcf⟩ := h
  refine ⟨by rw [hu], ht, hd, hcb, ?_⟩
  intro k v hkv
  show (f stN.uniforms).flags k = some v
  rw [hf]
  exact hcf k v hkv

/-- A cached boolean-uniform write simulates the direct write. -/
theorem simRel_flag (k : BoolUniform) (v : ℤ) {stO stN : GLState}
    {c : GLStateCache} (h : simRel stO stN c) :
    simRel (glUniformFlag stO k v) (setUniform1iCachedGL (stN, c) k v).1
      (setUniform1iCachedGL (stN, c) k v).2 := by
  obtain ⟨hu, ht, hd, hcb, hcf⟩ := h
  by_cases hhit : c.bools k = some v
  · rw [setUniform1iCachedGL, if_pos hhit]
    refine ⟨?_, ht, hd, hcb, hcf⟩
    have hflag : stO.uniforms.flags k = some v := by
      rw [← hu]
      exact hcf k v hhit
    show stN.uniforms = (glUniformFlag stO k v).uniforms
    rw [hu]
    show stO.uniforms =
      { stO.uniforms with flags := fun k2 => if k2 = k then some v else stO.uniforms.flags k2 }
    ext1 <;> try rfl
    funext k2
    show stO.uniforms.flags k2 = if k2 = k then some v else stO.uniforms.flags k2
    by_cases hk : k2 = k
    · rw [if_pos hk, hk, hflag]
    · rw [if_neg hk]
  · rw [setUniform1iCachedGL, if_neg hhit]
    refine ⟨?_, ht, hd, hcb, ?_⟩
    · show (glUniformFlag stN k v).uniforms = (glUniformFlag stO k v).uniforms
      show { stN.uniforms with
          flags := fun k2 => if k2 = k then some v else stN.uniforms.flags k2 } =
        { stO.uniforms with
          flags := fun k2 => if k2 = k then some v else stO.uniforms.flags k2 }
      rw [hu]
    · intro k2 v2 h2
      show (if k2 = k then some v else stN.uniforms.flags k2) = some v2
      by_cases hk : k2 = k
      · rw [if_pos hk]
        have : (if k2 = k then some v else c.bools k2) = some v2 := h2
        rw [if_pos hk] at this
        exact this
      · rw [if_neg hk]
        have : (if k2 = k then some v else c.bools k2) = some v2 := h2
        rw [if_neg hk] at this
        exact hcf k2 v2 this

/-- A cache-aware texture bind simulates the direct bind on the
observable state. -/
theorem simRel_bind (unit tex : ℕ) {stO stN : GLState} {c : GLStateCache}
    (h : simRel stO stN c) :
    simRel (glBindTexture stO unit tex) (bindTextureOptimizedGL (stN, c) unit tex).1
      (bindTextureOptimizedGL (stN, c) unit tex).2 := by
  obtain ⟨hu, ht, hd, hcb, hcf⟩ := h
  by_cases hhit : c.boundTextures unit = some tex
  · rw [bindTextureOptimizedGL, if_pos hhit]
    refine ⟨hu, ?_, hd, hcb, hcf⟩
    show stN.texUnits = (glBindTexture stO unit tex).texUnits
    funext u
    show stN.texUnits u = if u = unit then some tex else stO.texUnits u
    by_cases hun : u = unit
    · rw [if_pos hun, hun]
      exact hcb unit tex hhit
    · rw [if_neg hun, ht]
  · rw [bindTextureOptimizedGL, if_neg hhit]
    refine ⟨hu, ?_, hd, ?_, hcf⟩
    · show (glBindTexture stN unit tex).texUnits = (glBindTexture stO unit tex).texUnits
      show (fun u => if u = unit then some tex else stN.texUnits u) =
        (fun u => if u = unit then some tex else stO.texUnits u)
      rw [ht]
    · intro u t h2
      show (if u = unit then some tex else stN.texUnits u) = some t
      have h2' : (if u = unit then some tex else c.boundTextures u) = some t := h2
      by_cases hun : u = unit
      · rw [if_pos hun]
        rw [if_pos hun] at h2'
        exact h2'
      · rw [if_neg hun]
        rw [if_neg hun] at h2'
        exact hcb u t h2'

/-- Head block simulation (model, color, light position). -/
theorem headWrites_sim (a : SphereArgs) {stO stN : GLState} {c : GLStateCache}
    (h : simRel stO stN c) : simRel (headWrites a stO) (headWrites a stN) c :=
  simRel_plain (fun u =>
    { u with
      model := some (sphereModelMatrix a.object.radius a.position a.axialTilt a.rotationAngle)
      color := some a.object.color
      lightPos := some ⟨0, 0, 0⟩ }) (fun _ => rfl) h

/-- Mid block simulation (time, terminator flag). -/
theorem midWrites_sim (a : SphereArgs) {stO stN : GLState} {c : GLStateCache}
    (h : simRel stO stN c) : simRel (midWrites a stO) (midWrites a stN) c :=
  simRel_plain (fun u =>
    { u with
      time := some a.time
      showTerminator := some (if a.object.name = "Earth" then 1 else 0) }) (fun _ => rfl) h

/-- Moon-shadow block simulation. -/
theorem shadowWrites_sim (a : SphereArgs) {stO stN : GLState} {c : GLStateCache}
    (h : simRel stO stN c) :
    simRel (shadowWritesOld a stO) (shadowWritesNew a (stN, c)).1
      (shadowWritesNew a (stN, c)).2 := by
  cases hmp : a.moonPos with
  | none =>
    simp only [shadowWritesOld, shadowWritesNew, hmp]
    exact simRel_flag _ _ h
  | some mp =>
    cases hmr : a.moonRadius with
    | none =>
      simp only [shadowWritesOld, shadowWritesNew, hmp, hmr]
      exact simRel_flag _ _ h
    | some mr =>
      simp only [shadowWritesOld, shadowWritesNew, hmp, hmr]
      by_cases hz : mr ≠ 0
      · rw [if_pos hz, if_pos hz]
        exact simRel_flag _ _ (simRel_plain
          (fun u => { u with moonPos := some mp, moonRadius := some mr }) (fun _ => rfl) h)
      · rw [if_neg hz, if_neg hz]
        exact simRel_flag _ _ h

/-- Planet-shadow block simulation. -/
theorem planetShadowWrites_sim (a : SphereArgs) {stO stN : GLState} {c : GLStateCache}
    (h : simRel stO stN c) :
    simRel (planetShadowWritesOld a stO) (planetShadowWritesNew a (stN, c)).1
      (planetShadowWritesNew a (stN, c)).2 := by
  cases hpp : a.planetPos with
  | none =>
    simp only [planetShadowWritesOld, planetShadowWritesNew, hpp]
    exact simRel_flag _ _ h
  | some pp =>
    cases hpr : a.planetRadius with
    | none =>
      simp only [planetShadowWritesOld, planetShadowWritesNew, hpp, hpr]
      exact simRel_flag _ _ h
    | some pr =>
      simp only [planetShadowWritesOld, planetShadowWritesNew, hpp, hpr]
      by_cases hz : pr ≠ 0
      · rw [if_pos hz, if_pos hz]
        exact simRel_flag _ _ (simRel_plain
          (fun u => { u with planetPos := some pp, planetRadius := some pr }) (fun _ => rfl) h)
      · rw [if_neg hz, if_neg hz]
        exact simRel_flag _ _ h

/-- Base-texture block simulation. -/
theorem textureWrites_sim (a : SphereArgs) {stO stN : GLState} {c : GLStateCache}
    (h : simRel stO stN c) :
    simRel (textureWritesOld a stO) (textureWritesNew a (stN, c)).1
      (textureWritesNew a (stN, c)).2 := by
  cases htex : a.texture with
  | none =>
    simp only [textureWritesOld, textureWritesNew, htex]
    exact simRel_flag _ _ h
  | some tex =>
    simp only [textureWritesOld, textureWritesNew, htex]
    exact simRel_flag _ _ (simRel_plain
      (fun u => { u with textureSampler := some 0 }) (fun _ => rfl) (simRel_bind 0 tex h))

/-- Cloud block simulation. -/
theorem cloudWrites_sim (a : SphereArgs) {stO stN : GLState} {c : GLStateCache}
    (h : simRel stO stN c) :
    simRel (cloudWritesOld a stO) (cloudWritesNew a (stN, c)).1
      (cloudWritesNew a (stN, c)).2 := by
  cases htex : a.cloudTexture with
  | none =>
    simp only [cloudWritesOld, cloudWritesNew, htex]
    exact simRel_plain (fun u => { u with cloudRotation := some 0 }) (fun _ => rfl)
      (simRel_flag _ _ h)
  | some tex =>
    simp only [cloudWritesOld, cloudWritesNew, htex]
    by_cases hearth : a.object.name = "Earth"
    · rw [if_pos hearth, if_pos hearth]
      exact simRel_plain (fun u => { u with cloudRotation := some a.cloudRotation })
        (fun _ => rfl)
        (simRel_flag _ _ (simRel_plain (fun u => { u with cloudSampler := some 1 })
          (fun _ => rfl) (simRel_bind 1 tex h)))
    · rw [if_neg hearth, if_neg hearth]
      exact simRel_plain (fun u => { u with cloudRotation := some 0 }) (fun _ => rfl)
        (simRel_flag _ _ h)

/-- Specular block simulation. -/
theorem specularWrites_sim (a : SphereArgs) {stO stN : GLState} {c : GLStateCache}
    (h : simRel stO stN c) :
    simRel (specularWritesOld a stO) (specularWritesNew a (stN, c)).1
      (specularWritesNew a (stN, c)).2 := by
  cases htex : a.specularTexture with
  | none =>
    simp only [specularWritesOld, specularWritesNew, htex]
    exact simRel_flag _ _ h
  | some tex =>
    simp only [specularWritesOld, specularWritesNew, htex]
    by_cases hearth : a.object.name = "Earth"
    · rw [if_pos hearth, if_pos hearth]
      exact simRel_flag _ _ (simRel_plain (fun u => { u with specularSampler := some 2 })
        (fun _ => rfl) (simRel_bind 2 tex h))
    · rw [if_neg hearth, if_neg hearth]
      exact simRel_flag _ _ h

/-- Normal-map block simulation. -/
theorem normalWrites_sim (a : SphereArgs) {stO stN : GLState} {c : GLStateCache}
    (h : simRel stO stN c) :
    simRel (normalWritesOld a stO) (normalWritesNew a (stN, c)).1
      (normalWritesNew a (stN, c)).2 := by
  cases htex : a.normalTexture with
  | none =>
    simp only [normalWritesOld, normalWritesNew, htex]
    exact simRel_flag _ _ h
  | some tex =>
    simp only [normalWritesOld, normalWritesNew, htex]
    by_cases hearth : a.object.name = "Earth"
    · rw [if_pos hearth, if_pos hearth]
      exact simRel_flag _ _ (simRel_plain (fun u => { u with normalSampler := some 3 })
        (fun _ => rfl) (simRel_bind 3 tex h))
    · rw [if_neg hearth, if_neg hearth]
      exact simRel_flag _ _ h

/-- Night-map block simulation. -/
theorem nightWrites_sim (a : SphereArgs) {stO stN : GLState} {c : GLStateCache}
    (h : simRel stO stN c) :
    simRel (nightWritesOld a stO) (nightWritesNew a (stN, c)).1
      (nightWritesNew a (stN, c)).2 := by
  cases htex : a.nightTexture with
  | none =>
    simp only [nightWritesOld, nightWritesNew, htex]
    exact simRel_flag _ _ h
  | some tex =>
    simp only [nightWritesOld, nightWritesNew, htex]
    by_cases hearth : a.object.name = "Earth"
    · rw [if_pos hearth, if_pos hearth]
      exact simRel_flag _ _ (simRel_plain (fun u => { u with nightSampler := some 4 })
        (fun _ => rfl) (simRel_bind 4 tex h))
    · rw [if_neg hearth, if_neg hearth]
      exact simRel_flag _ _ h

/-- Draw-call simulation. -/
theorem drawWrites_sim (a : SphereArgs) {stO stN : GLState} {c : GLStateCache}
    (h : simRel stO stN c) : simRel (drawWrites a stO) (drawWrites a stN) c := by
  obtain ⟨hu, ht, hd, hcb, hcf⟩ := h
  exact ⟨hu, ht, by show stN.draws ++ _ = stO.draws ++ _; rw [hd], hcb, hcf⟩

/-- C9 amended: starting from the same graphics state, and from any prior
cache contents CONSISTENT with that state (every cached entry equals the
value actually in the graphics state), the state-cached renderSphere
leaves every uniform value, every per-unit texture binding, and the
issued draw calls identical to the older renderSphere that writes
everything unconditionally. -/
theorem render_sphere_cached_refines_uncached (st : GLState) (c : GLStateCache)
    (a : SphereArgs) (h : cacheConsistent st c) :
    (renderSphereCached (st, c) a).1.uniforms = (renderSphereUncached st a).uniforms ∧
    (renderSphereCached (st, c) a).1.texUnits = (renderSphereUncached st a).texUnits ∧
    (renderSphereCached (st, c) a).1.draws = (renderSphereUncached st a).draws := by
  have h0 : simRel st st c := ⟨rfl, rfl, rfl, h⟩
  have hfin := drawWrites_sim a (nightWrites_sim a (normalWrites_sim a
    (specularWrites_sim a (cloudWrites_sim a (textureWrites_sim a
      (planetShadowWrites_sim a (shadowWrites_sim a (midWrites_sim a
        (simRel_flag .emissive (if a.object.emissive then 1 else 0)
          (headWrites_sim a h0))))))))))
  exact ⟨hfin.1, hfin.2.1, hfin.2.2.1⟩

/-- The empty uniform store (nothing written yet). -/
def emptyUniforms : GLUniforms :=
  ⟨none, none, none, none, none, none, none, none, none, none, none, none, none,
    none, none, fun _ => none⟩

/-- A minimal renderSphere argument vector: an emissive body named "X"
with no optional textures or shadow casters. -/
def plainArgs : SphereArgs :=
  ⟨⟨"X", 1, ⟨1, 1, 1⟩, true⟩, ⟨0, 0, 0⟩, none, none, none, 0, none, none, 0,
    none, none, none, none, none, 0, ⟨0, 0, 0, 0, 0⟩⟩

/-- A graphics state whose emissive uniform is 0. -/
def desyncGLState : GLState :=
  ⟨{ emptyUniforms with
      flags := fun k => if k = BoolUniform.emissive then some 0 else none },
    fun _ => none, 0, []⟩

/-- A cache claiming the emissive uniform was last written as 1 — out of
sync with `desyncGLState`. -/
def desyncCache : GLStateCache :=
  ⟨fun _ => none, fun k => if k = BoolUniform.emissive then some 1 else none⟩

/-- C9 counterexample: with an arbitrary (desynchronized) prior cache the
two renderers do NOT leave identical graphics state: rendering an
emissive object with the cache claiming `lastEmissive = 1` while the
actual uniform is 0 makes the cached renderer skip the write (uniform
stays 0), whereas the uncached renderer writes 1. -/
theorem render_sphere_cache_desync_counterexample :
    (renderSphereCached (desyncGLState, desyncCache) plainArgs).1.uniforms.flags
        BoolUniform.emissive = some 0 ∧
    (renderSphereUncached desyncGLState plainArgs).uniforms.flags
        BoolUniform.emissive = some 1 ∧
    (renderSphereCached (desyncGLState, desyncCache) plainArgs).1.uniforms.flags
        BoolUniform.emissive ≠
      (renderSphereUncached desyncGLState plainArgs).uniforms.flags
        BoolUniform.emissive := by
  have h1 : (renderSphereCached (desyncGLState, desyncCache) plainArgs).1.uniforms.flags
      BoolUniform.emissive = some 0 := by
    simp only [renderSphereCached, plainArgs, desyncGLState, desyncCache, emptyUniforms,
      headWrites, midWrites, shadowWritesNew, planetShadowWritesNew, textureWritesNew,
      cloudWritesNew, specularWritesNew, normalWritesNew, nightWritesNew, drawWrites,
      setUniform1iCachedGL, glUniformFlag, bindTextureOptimizedGL, glBindTexture]
    decide
  have h2 : (renderSphereUncached desyncGLState plainArgs).uniforms.flags
      BoolUniform.emissive = some 1 := by
    simp only [renderSphereUncached, plainArgs, desyncGLState, emptyUniforms,
      headWrites, midWrites, shadowWritesOld, planetShadowWritesOld, textureWritesOld,
      cloudWritesOld, specularWritesOld, normalWritesOld, nightWritesOld, drawWrites,
      glUniformFlag, glBindTexture]
    decide
  refine ⟨h1, h2, ?_⟩
  rw [h1, h2]
  norm_num

/-- C9 witness: the refinement at the all-empty (vacuously consistent)
cache, the empty graphics state and the minimal argument vector. -/
theorem render_sphere_cached_refines_uncached_witness :
    cacheConsistent ⟨emptyUniforms, fun _ => none, 0, []⟩ ⟨fun _ => none, fun _ => none⟩ ∧
    ((renderSphereCached (⟨emptyUniforms, fun _ => none, 0, []⟩,
        ⟨fun _ => none, fun _ => none⟩) plainArgs).1.uniforms =
      (renderSphereUncached ⟨emptyUniforms, fun _ => none, 0, []⟩ plainArgs).uniforms ∧
    (renderSphereCached (⟨emptyUniforms, fun _ => none, 0, []⟩,
        ⟨fun _ => none, fun _ => none⟩) plainArgs).1.texUnits =
      (renderSphereUncached ⟨emptyUniforms, fun _ => none, 0, []⟩ plainArgs).texUnits ∧
    (renderSphereCached (⟨emptyUniforms, fun _ => none, 0, []⟩,
        ⟨fun _ => none, fun _ => none⟩) plainArgs).1.draws =
      (renderSphereUncached ⟨emptyUniforms, fun _ => none, 0, []⟩ plainArgs).draws) :=
  ⟨⟨fun _ _ ht => Option.noConfusion ht, fun _ _ hv => Option.noConfusion hv⟩,
    render_sphere_cached_refines_uncached ⟨emptyUniforms, fun _ => none, 0, []⟩
      ⟨fun _ => none, fun _ => none⟩ plainArgs
      ⟨fun _ _ ht => Option.noConfusion ht, fun _ _ hv => Option.noConfusion hv⟩⟩

end

end SolarSystem
